import Mathlib

/-!
Shallow embedding of the A/B-test revenue and ABV projection engine
(src/app.py): the two-proportion z-test for the conversion-rate metric,
the summary-statistics value test, the decaying-uplift revenue projection
and the recommendation rule, together with theorems settling the
specification's claims about them.

Numbers are modelled as real numbers; the integer widget inputs
(visitor counts, daily traffic) become reals constrained by hypotheses,
and the forecast horizon is a natural number used as a loop bound.
-/

open MeasureTheory

namespace ABTest

noncomputable section

/-- The fixed 97.5th-percentile standard-normal quantile that the code
obtains from its statistics library (`stats.norm.ppf(0.975)`); the spec
fixes it as the constant 1.959964. -/
def z975 : ℝ := 1.959964

/-- Survival function of the standard normal distribution, modelling the
library call `stats.norm.sf`: the Gaussian density integrated over `Ioi z`. -/
def norm_sf (z : ℝ) : ℝ :=
  (∫ t in Set.Ioi z, Real.exp (-(1 / 2) * t ^ 2)) / Real.sqrt (2 * Real.pi)

/-- app.py lines 71-72: the effective conversion count of one arm,
`max(1, rate * users)` — clamped below at 1 so later divisions see a
positive count. Both `baseline_conversions_test` and
`variant_conversions_test` are instances of this function. -/
def conversions_test (rate users : ℝ) : ℝ := max 1 (rate * users)

/-- app.py line 75: absolute conversion-rate uplift. -/
def cvr_abs_uplift (baseline_rate variant_rate : ℝ) : ℝ := variant_rate - baseline_rate

/-- app.py line 77: pooled conversion rate. -/
def p_pool (baseline_rate baseline_users variant_rate variant_users : ℝ) : ℝ :=
  (conversions_test baseline_rate baseline_users +
      conversions_test variant_rate variant_users) /
    (baseline_users + variant_users)

/-- app.py line 78: pooled standard error of the rate difference,
guarded to 0 when the pooled rate is not positive. -/
def se_pool_cvr (baseline_rate baseline_users variant_rate variant_users : ℝ) : ℝ :=
  if 0 < p_pool baseline_rate baseline_users variant_rate variant_users then
    Real.sqrt (p_pool baseline_rate baseline_users variant_rate variant_users *
      (1 - p_pool baseline_rate baseline_users variant_rate variant_users) *
      (1 / baseline_users + 1 / variant_users))
  else 0

/-- app.py line 79: z statistic, defaulting to 0 when the pooled standard
error is not positive. -/
def z_score_cvr (baseline_rate baseline_users variant_rate variant_users : ℝ) : ℝ :=
  if 0 < se_pool_cvr baseline_rate baseline_users variant_rate variant_users then
    cvr_abs_uplift baseline_rate variant_rate /
      se_pool_cvr baseline_rate baseline_users variant_rate variant_users
  else 0

/-- app.py line 80: two-sided p-value for the rate metric. -/
def p_value_cvr (baseline_rate baseline_users variant_rate variant_users : ℝ) : ℝ :=
  norm_sf |z_score_cvr baseline_rate baseline_users variant_rate variant_users| * 2

/-- app.py line 81: lower endpoint of the 95% CI for the rate difference. -/
def ci_cvr_low (baseline_rate baseline_users variant_rate variant_users : ℝ) : ℝ :=
  cvr_abs_uplift baseline_rate variant_rate -
    z975 * se_pool_cvr baseline_rate baseline_users variant_rate variant_users

/-- app.py line 82: upper endpoint of the 95% CI for the rate difference. -/
def ci_cvr_high (baseline_rate baseline_users variant_rate variant_users : ℝ) : ℝ :=
  cvr_abs_uplift baseline_rate variant_rate +
    z975 * se_pool_cvr baseline_rate baseline_users variant_rate variant_users

/-- app.py line 85: absolute average-value uplift. -/
def abv_abs_uplift (baseline_avg variant_avg : ℝ) : ℝ := variant_avg - baseline_avg

/-- app.py line 87: standard error of the value difference from summary
statistics, with the effective conversion counts as denominators. -/
def se_pool_abv (baseline_std n_c variant_std n_v : ℝ) : ℝ :=
  Real.sqrt (baseline_std ^ 2 / n_c + variant_std ^ 2 / n_v)

/-- app.py line 88: z statistic for the value metric, defaulting to 0 when
the standard error is not positive. -/
def z_score_abv (baseline_avg baseline_std n_c variant_avg variant_std n_v : ℝ) : ℝ :=
  if 0 < se_pool_abv baseline_std n_c variant_std n_v then
    abv_abs_uplift baseline_avg variant_avg / se_pool_abv baseline_std n_c variant_std n_v
  else 0

/-- app.py line 89: two-sided p-value for the value metric. -/
def p_value_abv (baseline_avg baseline_std n_c variant_avg variant_std n_v : ℝ) : ℝ :=
  norm_sf |z_score_abv baseline_avg baseline_std n_c variant_avg variant_std n_v| * 2

/-- app.py line 90: lower endpoint of the 95% CI for the value difference. -/
def ci_abv_low (baseline_avg baseline_std n_c variant_avg variant_std n_v : ℝ) : ℝ :=
  abv_abs_uplift baseline_avg variant_avg - z975 * se_pool_abv baseline_std n_c variant_std n_v

/-- app.py line 91: upper endpoint of the 95% CI for the value difference. -/
def ci_abv_high (baseline_avg baseline_std n_c variant_avg variant_std n_v : ℝ) : ℝ :=
  abv_abs_uplift baseline_avg variant_avg + z975 * se_pool_abv baseline_std n_c variant_std n_v

/-- app.py line 101: linear decay progress for a given day, `0` on a
single-day horizon. -/
def daily_decay_factor (forecast_period day : ℕ) : ℝ :=
  if 1 < forecast_period then (day : ℝ) / ((forecast_period : ℝ) - 1) else 0

/-- app.py lines 97-103: the variant daily revenue on a given day —
the control daily revenue plus the linearly decayed initial daily lift. -/
def daily_variant_revenue
    (daily_traffic baseline_rate baseline_avg_revenue cvr abv decay_rate : ℝ)
    (forecast_period day : ℕ) : ℝ :=
  daily_traffic * baseline_rate * baseline_avg_revenue +
    (daily_traffic * cvr * abv - daily_traffic * baseline_rate * baseline_avg_revenue) *
      (1 - decay_rate * daily_decay_factor forecast_period day)

/-- app.py lines 96-105: `calculate_cumulative_revenue`, read off at index
`d` (0-based): the cumulative sum of the daily variant revenues through
day `d`, inclusive. -/
def calculate_cumulative_revenue
    (daily_traffic baseline_rate baseline_avg_revenue cvr abv decay_rate : ℝ)
    (forecast_period d : ℕ) : ℝ :=
  ∑ i ∈ Finset.range (d + 1),
    daily_variant_revenue daily_traffic baseline_rate baseline_avg_revenue cvr abv decay_rate
      forecast_period i

/-- app.py line 107: cumulative control revenue at index `d`, the running
sum of a constant daily figure. -/
def control_cumulative (daily_traffic baseline_rate baseline_avg_revenue : ℝ) (d : ℕ) : ℝ :=
  ∑ _i ∈ Finset.range (d + 1), daily_traffic * baseline_rate * baseline_avg_revenue

/-- The three recommendation categories of the executive summary. -/
inductive Recommendation
  | ROLL_OUT
  | CAUTION
  | DO_NOT_ROLL_OUT
  deriving DecidableEq

/-- app.py lines 204-205: a metric result is significant when its p-value
is strictly below 0.05 and its absolute uplift is strictly positive. -/
def significant (p delta : ℝ) : Prop := p < 0.05 ∧ 0 < delta

instance (p delta : ℝ) : Decidable (significant p delta) := by
  unfold significant
  infer_instance

/-- app.py lines 204-218: the recommendation rule applied to the two
significance outcomes. -/
def recommendation (p_cvr u_cvr p_abv u_abv : ℝ) : Recommendation :=
  if significant p_cvr u_cvr ∧ significant p_abv u_abv then .ROLL_OUT
  else if significant p_cvr u_cvr ∨ significant p_abv u_abv then .CAUTION
  else .DO_NOT_ROLL_OUT

/-- Division that signals a zero denominator instead of evaluating, used
to express the totality claim: the unchecked code never divides by zero. -/
def div? (x y : ℝ) : Option ℝ := if y = 0 then none else some (x / y)

/-- Square root that signals a negative argument (a domain error), used to
express the totality claim. -/
def sqrt? (x : ℝ) : Option ℝ := if x < 0 then none else some (Real.sqrt x)

/-- Checked decay factor: the division `day / (forecast_period - 1)` is
attempted only when `forecast_period > 1` (app.py line 101). -/
def daily_decay_factor? (forecast_period day : ℕ) : Option ℝ :=
  if 1 < forecast_period then div? (day : ℝ) ((forecast_period : ℝ) - 1) else some 0

/-- Checked projection loop (app.py lines 99-104): the list of daily
variant revenues over the first `n` days, each day checking its decay
factor division. -/
def daily_revenues?
    (daily_traffic baseline_rate baseline_avg_revenue cvr abv decay_rate : ℝ)
    (forecast_period : ℕ) : ℕ → Option (List ℝ)
  | 0 => some []
  | n + 1 =>
    (daily_revenues? daily_traffic baseline_rate baseline_avg_revenue cvr abv decay_rate
        forecast_period n).bind fun xs =>
      (daily_decay_factor? forecast_period n).bind fun f =>
        some (xs ++ [daily_traffic * baseline_rate * baseline_avg_revenue +
          (daily_traffic * cvr * abv - daily_traffic * baseline_rate * baseline_avg_revenue) *
            (1 - decay_rate * f)])

/-- Running inclusive cumulative sums of a list, modelling `np.cumsum`. -/
def cumsum (l : List ℝ) : List ℝ := (l.scanl (· + ·) 0).tail

/-- Checked rate significance test (app.py lines 71-82): relative uplift
(`none` models the NaN of a zero control rate), pooled rate, standard
error, z statistic, p-value and confidence interval, with every division
and square root checked. Returns (p-value, ci low, ci high, relative). -/
def rate_test? (baseline_rate baseline_users variant_rate variant_users : ℝ) :
    Option (ℝ × ℝ × ℝ × Option ℝ) :=
  (if 0 < baseline_rate then
      (div? (variant_rate - baseline_rate) baseline_rate).map (fun q => some (q * 100))
    else some none).bind fun rel =>
  (div? (conversions_test baseline_rate baseline_users +
      conversions_test variant_rate variant_users) (baseline_users + variant_users)).bind fun pp =>
  (div? 1 baseline_users).bind fun ib =>
  (div? 1 variant_users).bind fun iv =>
  (if 0 < pp then sqrt? (pp * (1 - pp) * (ib + iv)) else some 0).bind fun se =>
  (if 0 < se then div? (variant_rate - baseline_rate) se else some 0).bind fun z =>
  some (norm_sf |z| * 2, (variant_rate - baseline_rate) - z975 * se,
    (variant_rate - baseline_rate) + z975 * se, rel)

/-- Checked value significance test (app.py lines 85-91), with the
effective conversion counts passed in as denominators. Returns
(p-value, ci low, ci high, relative). -/
def value_test? (baseline_avg baseline_std n_c variant_avg variant_std n_v : ℝ) :
    Option (ℝ × ℝ × ℝ × Option ℝ) :=
  (if 0 < baseline_avg then
      (div? (variant_avg - baseline_avg) baseline_avg).map (fun q => some (q * 100))
    else some none).bind fun rel =>
  (div? (baseline_std ^ 2) n_c).bind fun v1 =>
  (div? (variant_std ^ 2) n_v).bind fun v2 =>
  (sqrt? (v1 + v2)).bind fun se =>
  (if 0 < se then div? (variant_avg - baseline_avg) se else some 0).bind fun z =>
  some (norm_sf |z| * 2, (variant_avg - baseline_avg) - z975 * se,
    (variant_avg - baseline_avg) + z975 * se, rel)

/-- The whole checked calculation block (app.py lines 66-113): percentage
conversions, both significance tests, the three checked projection series,
and the final-day revenue differences read off the cumulative series (the
`[-1]` accesses, which fail on an empty series). A `none` anywhere marks a
division by zero, a negative square-root argument, or an out-of-range
index. -/
def run_calculation?
    (baseline_conv baseline_users variant_conv variant_users baseline_avg_revenue
      baseline_std_dev variant_avg_revenue variant_std_dev daily_traffic : ℝ)
    (forecast_period : ℕ) (decay_rate_pct : ℝ) : Option (ℝ × ℝ) :=
  (div? baseline_conv 100).bind fun baseline_rate =>
  (div? variant_conv 100).bind fun variant_rate =>
  (div? decay_rate_pct 100).bind fun decay_rate =>
  (rate_test? baseline_rate baseline_users variant_rate variant_users).bind fun rate_res =>
  (value_test? baseline_avg_revenue baseline_std_dev
      (conversions_test baseline_rate baseline_users) variant_avg_revenue variant_std_dev
      (conversions_test variant_rate variant_users)).bind fun _value_res =>
  (daily_revenues? daily_traffic baseline_rate baseline_avg_revenue variant_rate
      variant_avg_revenue decay_rate forecast_period forecast_period).bind fun mean =>
  (daily_revenues? daily_traffic baseline_rate baseline_avg_revenue
      (baseline_rate + rate_res.2.1) variant_avg_revenue decay_rate forecast_period
      forecast_period).bind fun lower =>
  (daily_revenues? daily_traffic baseline_rate baseline_avg_revenue
      (baseline_rate + rate_res.2.2.1) variant_avg_revenue decay_rate forecast_period
      forecast_period).bind fun upper =>
  (cumsum (List.replicate forecast_period
      (daily_traffic * baseline_rate * baseline_avg_revenue))).getLast?.bind fun last_control =>
  (cumsum mean).getLast?.bind fun _last_mean =>
  (cumsum lower).getLast?.bind fun last_lower =>
  (cumsum upper).getLast?.bind fun last_upper =>
  some (last_lower - last_control, last_upper - last_control)

/-- The survival function evaluates to one half at zero: half of the
Gaussian mass lies in the right half-line. -/
lemma norm_sf_zero : norm_sf 0 = 1 / 2 := by
  unfold norm_sf
  rw [integral_gaussian_Ioi (1 / 2)]
  have h2 : Real.pi / (1 / 2) = 2 * Real.pi := by ring
  rw [h2]
  have h3 : Real.sqrt (2 * Real.pi) ≠ 0 :=
    ne_of_gt (Real.sqrt_pos.mpr (by positivity))
  field_simp
  ring

/-- The standard error of the rate test is never negative. -/
lemma se_pool_cvr_nonneg (baseline_rate baseline_users variant_rate variant_users : ℝ) :
    0 ≤ se_pool_cvr baseline_rate baseline_users variant_rate variant_users := by
  unfold se_pool_cvr
  split
  · exact Real.sqrt_nonneg _
  · exact le_refl 0

/-- The rate test's p-value is exactly 1 whenever the two rates coincide,
whatever the counts: the uplift is 0, hence the z statistic is 0 in both
branches of its guard. -/
lemma p_value_cvr_self (rate baseline_users variant_users : ℝ) :
    p_value_cvr rate baseline_users rate variant_users = 1 := by
  have hz : z_score_cvr rate baseline_users rate variant_users = 0 := by
    unfold z_score_cvr cvr_abs_uplift
    split
    · simp
    · rfl
  unfold p_value_cvr
  rw [hz, abs_zero, norm_sf_zero]
  norm_num

/-- The rate test standard error vanishes on the degenerate sample with
both rates 1 and both counts 1: the pooled rate is 1 and the square root
of 0 is 0. -/
lemma se_pool_cvr_ones : se_pool_cvr 1 1 1 1 = 0 := by
  have hp : p_pool 1 1 1 1 = 1 := by
    unfold p_pool conversions_test
    norm_num
  unfold se_pool_cvr
  rw [hp]
  norm_num

/-- C5: the Recommendation Rule takes `significant(p, delta) = (p < 0.05)
and (delta > 0)` with strict comparisons, and maps the 2x2 truth table
exhaustively: both significant to ROLL_OUT, exactly one to CAUTION,
neither to DO_NOT_ROLL_OUT; a p-value equal to 0.05 or a zero uplift
counts as not significant. -/
theorem C5_recommendation_rule (p1 d1 p2 d2 : ℝ) :
    (significant p1 d1 ↔ p1 < 0.05 ∧ 0 < d1) ∧
    (significant p1 d1 → significant p2 d2 →
      recommendation p1 d1 p2 d2 = Recommendation.ROLL_OUT) ∧
    (significant p1 d1 → ¬ significant p2 d2 →
      recommendation p1 d1 p2 d2 = Recommendation.CAUTION) ∧
    (¬ significant p1 d1 → significant p2 d2 →
      recommendation p1 d1 p2 d2 = Recommendation.CAUTION) ∧
    (¬ significant p1 d1 → ¬ significant p2 d2 →
      recommendation p1 d1 p2 d2 = Recommendation.DO_NOT_ROLL_OUT) ∧
    (¬ significant 0.05 d1) ∧ (¬ significant p1 0) := by
  refine ⟨Iff.rfl, ?_, ?_, ?_, ?_, ?_, ?_⟩
  · intro h1 h2
    rw [recommendation, if_pos ⟨h1, h2⟩]
  · intro h1 h2
    rw [recommendation, if_neg (fun hc => h2 hc.2), if_pos (Or.inl h1)]
  · intro h1 h2
    rw [recommendation, if_neg (fun hc => h1 hc.1), if_pos (Or.inr h2)]
  · intro h1 h2
    rw [recommendation, if_neg (fun hc => h1 hc.1),
      if_neg (fun hc => hc.elim h1 h2)]
  · intro h
    exact absurd h.1 (lt_irrefl _)
  · intro h
    exact absurd h.2 (lt_irrefl 0)

/-- Witness for C5 at concrete inputs covering the three outcomes. -/
theorem C5_recommendation_rule_witness :
    recommendation 0.01 1 0.01 1 = Recommendation.ROLL_OUT ∧
    recommendation 0.01 1 1 1 = Recommendation.CAUTION ∧
    recommendation 1 1 1 1 = Recommendation.DO_NOT_ROLL_OUT := by
  have hsig : significant 0.01 1 := ⟨by norm_num, by norm_num⟩
  have hnot : ¬ significant 1 1 := fun h => by
    have := h.1
    norm_num at this
  exact ⟨(C5_recommendation_rule 0.01 1 0.01 1).2.1 hsig hsig,
    (C5_recommendation_rule 0.01 1 1 1).2.2.1 hsig hnot,
    (C5_recommendation_rule 1 1 1 1).2.2.2.2.1 hnot hnot⟩

/-- C6: when the rate confidence interval is degenerate with
`ci_low = ci_high = variant_rate - baseline_rate`, the lower-bound and
upper-bound cumulative series coincide with the mean variant cumulative
series at every day index. -/
theorem C6_zero_width_band
    (daily_traffic baseline_rate baseline_avg_revenue baseline_users variant_rate variant_users
      variant_avg decay_rate : ℝ) (forecast_period d : ℕ)
    (hlow : ci_cvr_low baseline_rate baseline_users variant_rate variant_users =
      variant_rate - baseline_rate)
    (hhigh : ci_cvr_high baseline_rate baseline_users variant_rate variant_users =
      variant_rate - baseline_rate) :
    calculate_cumulative_revenue daily_traffic baseline_rate baseline_avg_revenue
        (baseline_rate + ci_cvr_low baseline_rate baseline_users variant_rate variant_users)
        variant_avg decay_rate forecast_period d =
      calculate_cumulative_revenue daily_traffic baseline_rate baseline_avg_revenue variant_rate
        variant_avg decay_rate forecast_period d ∧
    calculate_cumulative_revenue daily_traffic baseline_rate baseline_avg_revenue
        (baseline_rate + ci_cvr_high baseline_rate baseline_users variant_rate variant_users)
        variant_avg decay_rate forecast_period d =
      calculate_cumulative_revenue daily_traffic baseline_rate baseline_avg_revenue variant_rate
        variant_avg decay_rate forecast_period d := by
  have harg : baseline_rate + (variant_rate - baseline_rate) = variant_rate := by ring
  constructor
  · rw [hlow, harg]
  · rw [hhigh, harg]

/-- Witness for C6 on the degenerate sample with both rates 1 and both
counts 1, where the pooled standard error is 0. -/
theorem C6_zero_width_band_witness :
    calculate_cumulative_revenue 1 1 1 (1 + ci_cvr_low 1 1 1 1) 1 (1 / 2) 3 2 =
      calculate_cumulative_revenue 1 1 1 1 1 (1 / 2) 3 2 ∧
    calculate_cumulative_revenue 1 1 1 (1 + ci_cvr_high 1 1 1 1) 1 (1 / 2) 3 2 =
      calculate_cumulative_revenue 1 1 1 1 1 (1 / 2) 3 2 := by
  have hlow : ci_cvr_low 1 1 1 1 = 1 - 1 := by
    unfold ci_cvr_low cvr_abs_uplift
    rw [se_pool_cvr_ones]
    ring
  have hhigh : ci_cvr_high 1 1 1 1 = 1 - 1 := by
    unfold ci_cvr_high cvr_abs_uplift
    rw [se_pool_cvr_ones]
    ring
  exact C6_zero_width_band 1 1 1 1 1 1 1 (1 / 2) 3 2 hlow hhigh

/-- C7: with decay fraction 0, the variant cumulative series at 0-based
index `d` is exactly `(d+1)` times the constant daily variant revenue
`base_daily + initial_daily_lift`; no decay is applied. -/
theorem C7_zero_decay_linear
    (daily_traffic baseline_rate baseline_avg_revenue cvr abv : ℝ) (forecast_period d : ℕ) :
    calculate_cumulative_revenue daily_traffic baseline_rate baseline_avg_revenue cvr abv 0
        forecast_period d =
      ((d : ℝ) + 1) * (daily_traffic * baseline_rate * baseline_avg_revenue +
        (daily_traffic * cvr * abv - daily_traffic * baseline_rate * baseline_avg_revenue)) := by
  simp only [calculate_cumulative_revenue, daily_variant_revenue, zero_mul, sub_zero, mul_one,
    Finset.sum_const, Finset.card_range, nsmul_eq_mul, Nat.cast_add, Nat.cast_one]

/-- The fixed quantile constant is positive. -/
lemma z975_pos : (0 : ℝ) < z975 := by
  unfold z975
  norm_num

/-- C8: for identical rate samples (same rate in [0,1], same count >= 1 in
both arms) the Rate Significance Tester returns p-value exactly 1 and a
confidence interval whose lower endpoint is <= 0 and upper endpoint is
>= 0. -/
theorem C8_identical_samples (rate users : ℝ) (h0 : 0 ≤ rate) (h1 : rate ≤ 1)
    (hu : 1 ≤ users) :
    p_value_cvr rate users rate users = 1 ∧
    ci_cvr_low rate users rate users ≤ 0 ∧
    0 ≤ ci_cvr_high rate users rate users := by
  have hse := se_pool_cvr_nonneg rate users rate users
  have hzs : 0 ≤ z975 * se_pool_cvr rate users rate users :=
    mul_nonneg z975_pos.le hse
  refine ⟨p_value_cvr_self rate users users, ?_, ?_⟩
  · unfold ci_cvr_low cvr_abs_uplift
    linarith
  · unfold ci_cvr_high cvr_abs_uplift
    linarith

/-- Witness for C8 at rate 1/2 on 100 visitors per arm. -/
theorem C8_identical_samples_witness :
    p_value_cvr (1 / 2) 100 (1 / 2) 100 = 1 ∧
    ci_cvr_low (1 / 2) 100 (1 / 2) 100 ≤ 0 ∧
    0 ≤ ci_cvr_high (1 / 2) 100 (1 / 2) 100 :=
  C8_identical_samples (1 / 2) 100 (by norm_num) (by norm_num) (by norm_num)

/-- The pooled standard error at control rate 1/2 on 100 visitors and
variant rate 1 on 100 visitors is the square root of 3/800. -/
lemma se_pool_cvr_half_one : se_pool_cvr (1 / 2) 100 1 100 = Real.sqrt (3 / 800) := by
  have hp : p_pool (1 / 2) 100 1 100 = 3 / 4 := by
    unfold p_pool conversions_test
    norm_num
  unfold se_pool_cvr
  simp only [hp]
  rw [if_pos (by norm_num : (0 : ℝ) < 3 / 4)]
  norm_num

/-- C1 counterexample: at control rate 1/2 and variant rate 1, both on 100
visitors, the code's upper CI endpoint differs from the claimed formula
based on the unpooled standard error
sqrt(rate_c(1-rate_c)/count_c + rate_v(1-rate_v)/count_v): the code uses
the pooled standard error instead. -/
theorem C1_counterexample :
    ci_cvr_high (1 / 2) 100 1 100 ≠
      cvr_abs_uplift (1 / 2) 1 +
        z975 * Real.sqrt ((1 / 2) * (1 - 1 / 2) / 100 + 1 * (1 - 1) / 100) := by
  have hrhs : Real.sqrt ((1 / 2) * (1 - 1 / 2) / 100 + 1 * (1 - 1) / 100) = 1 / 20 := by
    rw [show (1 / 2 : ℝ) * (1 - 1 / 2) / 100 + 1 * (1 - 1) / 100 = (1 / 20) ^ 2 by norm_num,
      Real.sqrt_sq (by norm_num : (0 : ℝ) ≤ 1 / 20)]
  have hlt : (1 / 20 : ℝ) < Real.sqrt (3 / 800) :=
    (Real.lt_sqrt (by norm_num)).mpr (by norm_num)
  have hmul : z975 * (1 / 20) < z975 * Real.sqrt (3 / 800) :=
    mul_lt_mul_of_pos_left hlt z975_pos
  unfold ci_cvr_high
  rw [se_pool_cvr_half_one, hrhs]
  intro h
  linarith [h.symm.le]

/-- C1 amended: the code's 95% confidence interval for the rate difference
is centred at the absolute uplift with half-width z975 times the POOLED
standard error — the same pooled standard error used for the z statistic —
rather than the unpooled one. -/
theorem C1_amended_ci_uses_pooled_se
    (baseline_rate baseline_users variant_rate variant_users : ℝ) :
    ci_cvr_high baseline_rate baseline_users variant_rate variant_users -
        ci_cvr_low baseline_rate baseline_users variant_rate variant_users =
      2 * z975 * se_pool_cvr baseline_rate baseline_users variant_rate variant_users ∧
    ci_cvr_low baseline_rate baseline_users variant_rate variant_users +
        ci_cvr_high baseline_rate baseline_users variant_rate variant_users =
      2 * cvr_abs_uplift baseline_rate variant_rate := by
  unfold ci_cvr_low ci_cvr_high
  constructor <;> ring

/-- C2 counterexample: at control rate 0 with 100 visitors the effective
conversion count is 0*100 = 0, which the claim says must abort with an
InvalidInput error; instead the code silently clamps the count to 1 — a
clamp that is not one of the two documented guards — and the rate test
still produces a p-value. -/
theorem C2_counterexample :
    (0 : ℝ) * 100 ≤ 0 ∧ conversions_test 0 100 = 1 ∧ p_value_cvr 0 100 0 100 = 1 := by
  refine ⟨by norm_num, ?_, p_value_cvr_self 0 100 100⟩
  unfold conversions_test
  norm_num

/-- C2 amended: the significance testers never signal an error. The
effective conversion count is silently clamped below at 1 (so every
effective count <= 1 — including the zero or negative counts the claim
says must abort — is raised to 1), and a zero pooled standard error makes
the z statistic default to 0. -/
theorem C2_amended_no_error_clamp
    (rate users baseline_rate baseline_users variant_rate variant_users : ℝ) :
    1 ≤ conversions_test rate users ∧
    (rate * users ≤ 1 → conversions_test rate users = 1) ∧
    (se_pool_cvr baseline_rate baseline_users variant_rate variant_users = 0 →
      z_score_cvr baseline_rate baseline_users variant_rate variant_users = 0) := by
  refine ⟨le_max_left 1 (rate * users), ?_, ?_⟩
  · intro h
    unfold conversions_test
    exact max_eq_left h
  · intro h
    unfold z_score_cvr
    rw [if_neg (by rw [h]; exact lt_irrefl 0)]

/-- Witness for C2 amended: the zero-rate arm is clamped to one effective
conversion, and the degenerate all-ones sample has z = 0. -/
theorem C2_amended_no_error_clamp_witness :
    1 ≤ conversions_test 0 100 ∧ conversions_test 0 100 = 1 ∧ z_score_cvr 1 1 1 1 = 0 := by
  obtain ⟨h1, h2, h3⟩ := C2_amended_no_error_clamp 0 100 1 1 1 1
  exact ⟨h1, h2 (by norm_num), h3 se_pool_cvr_ones⟩

/-- The value test's standard error vanishes when both standard deviations
are 0 (with unit effective counts). -/
lemma se_pool_abv_zeros : se_pool_abv 0 1 0 1 = 0 := by
  unfold se_pool_abv
  rw [show (0 : ℝ) ^ 2 / 1 + 0 ^ 2 / 1 = 0 by norm_num, Real.sqrt_zero]

/-- C3 counterexample: with control mean 120, variant mean 125 and both
standard deviations 0 (unit effective counts), the value test's standard
error is 0; the code then returns p = 1 but the confidence interval is
(5, 5) — the degenerate interval at the uplift — not (0, 0) as claimed. -/
theorem C3_counterexample :
    se_pool_abv 0 1 0 1 = 0 ∧
    p_value_abv 120 0 1 125 0 1 = 1 ∧
    ci_abv_low 120 0 1 125 0 1 = 5 ∧
    ci_abv_high 120 0 1 125 0 1 = 5 ∧
    (5 : ℝ) ≠ 0 := by
  have hz : z_score_abv 120 0 1 125 0 1 = 0 := by
    unfold z_score_abv
    rw [if_neg (by rw [se_pool_abv_zeros]; exact lt_irrefl 0)]
  refine ⟨se_pool_abv_zeros, ?_, ?_, ?_, by norm_num⟩
  · unfold p_value_abv
    rw [hz, abs_zero, norm_sf_zero]
    norm_num
  · unfold ci_abv_low abv_abs_uplift
    rw [se_pool_abv_zeros]
    norm_num
  · unfold ci_abv_high abv_abs_uplift
    rw [se_pool_abv_zeros]
    norm_num

/-- C3 amended: when the value test's standard error is zero, the tester
returns p-value 1.0 and the degenerate confidence interval
(uplift, uplift) — equal to (0,0) only when the two means coincide. There
is no separate effective-count < 2 guard. -/
theorem C3_amended_zero_se
    (baseline_avg baseline_std n_c variant_avg variant_std n_v : ℝ)
    (h : se_pool_abv baseline_std n_c variant_std n_v = 0) :
    p_value_abv baseline_avg baseline_std n_c variant_avg variant_std n_v = 1 ∧
    ci_abv_low baseline_avg baseline_std n_c variant_avg variant_std n_v =
      variant_avg - baseline_avg ∧
    ci_abv_high baseline_avg baseline_std n_c variant_avg variant_std n_v =
      variant_avg - baseline_avg := by
  have hz : z_score_abv baseline_avg baseline_std n_c variant_avg variant_std n_v = 0 := by
    unfold z_score_abv
    rw [if_neg (by rw [h]; exact lt_irrefl 0)]
  refine ⟨?_, ?_, ?_⟩
  · unfold p_value_abv
    rw [hz, abs_zero, norm_sf_zero]
    norm_num
  · unfold ci_abv_low abv_abs_uplift
    rw [h]
    ring
  · unfold ci_abv_high abv_abs_uplift
    rw [h]
    ring

/-- Witness for C3 amended at the zero-standard-deviation input. -/
theorem C3_amended_zero_se_witness :
    p_value_abv 120 0 1 125 0 1 = 1 ∧
    ci_abv_low 120 0 1 125 0 1 = 125 - 120 ∧
    ci_abv_high 120 0 1 125 0 1 = 125 - 120 :=
  C3_amended_zero_se 120 0 1 125 0 1 se_pool_abv_zeros

/-- For a day inside the horizon the decay progress lies in [0, 1]. -/
lemma daily_decay_factor_mem (forecast_period day : ℕ) (hday : day < forecast_period) :
    0 ≤ daily_decay_factor forecast_period day ∧ daily_decay_factor forecast_period day ≤ 1 := by
  unfold daily_decay_factor
  by_cases hfp : 1 < forecast_period
  · have h1 : (1 : ℝ) < (forecast_period : ℝ) := by exact_mod_cast hfp
    have hpos : (0 : ℝ) < (forecast_period : ℝ) - 1 := by linarith
    have hle : (day : ℝ) + 1 ≤ (forecast_period : ℝ) := by exact_mod_cast Nat.succ_le_of_lt hday
    rw [if_pos hfp]
    constructor
    · exact div_nonneg (Nat.cast_nonneg day) hpos.le
    · rw [div_le_one hpos]
      linarith
  · rw [if_neg hfp]
    norm_num

/-- With a decay fraction in [0, 1] and a day inside the horizon, the
multiplier applied to the initial daily lift lies in [0, 1], so a daily
variant revenue built from non-negative traffic, rates and values is
non-negative. -/
lemma daily_variant_revenue_nonneg
    (daily_traffic baseline_rate baseline_avg_revenue cvr abv decay_rate : ℝ)
    (forecast_period day : ℕ)
    (ht : 0 ≤ daily_traffic) (hr : 0 ≤ baseline_rate) (hb : 0 ≤ baseline_avg_revenue)
    (hcvr : 0 ≤ cvr) (habv : 0 ≤ abv) (hd0 : 0 ≤ decay_rate) (hd1 : decay_rate ≤ 1)
    (hday : day < forecast_period) :
    0 ≤ daily_variant_revenue daily_traffic baseline_rate baseline_avg_revenue cvr abv
      decay_rate forecast_period day := by
  obtain ⟨hf0, hf1⟩ := daily_decay_factor_mem forecast_period day hday
  unfold daily_variant_revenue
  have hbase : 0 ≤ daily_traffic * baseline_rate * baseline_avg_revenue := by positivity
  have hrev : 0 ≤ daily_traffic * cvr * abv := by positivity
  have hdf0 : 0 ≤ decay_rate * daily_decay_factor forecast_period day := mul_nonneg hd0 hf0
  have hdf1 : decay_rate * daily_decay_factor forecast_period day ≤ 1 :=
    mul_le_one₀ hd1 hf0 hf1
  nlinarith [mul_nonneg hrev (by linarith :
      0 ≤ 1 - decay_rate * daily_decay_factor forecast_period day),
    mul_nonneg hbase hdf0]

/-- The cumulative revenue function is monotone non-decreasing in its rate
argument: a larger substituted conversion rate gives a pointwise larger
series, for non-negative traffic and value and decay fraction in [0, 1]. -/
lemma calculate_cumulative_revenue_mono
    (daily_traffic baseline_rate baseline_avg_revenue abv decay_rate cvr1 cvr2 : ℝ)
    (forecast_period d : ℕ)
    (ht : 0 ≤ daily_traffic) (habv : 0 ≤ abv) (hd0 : 0 ≤ decay_rate) (hd1 : decay_rate ≤ 1)
    (hc : cvr1 ≤ cvr2) (hday : d < forecast_period) :
    calculate_cumulative_revenue daily_traffic baseline_rate baseline_avg_revenue cvr1 abv
        decay_rate forecast_period d ≤
      calculate_cumulative_revenue daily_traffic baseline_rate baseline_avg_revenue cvr2 abv
        decay_rate forecast_period d := by
  unfold calculate_cumulative_revenue
  apply Finset.sum_le_sum
  intro i hi
  have hiday : i < forecast_period :=
    lt_of_lt_of_le (Finset.mem_range.mp hi) (Nat.succ_le_of_lt hday)
  obtain ⟨hf0, hf1⟩ := daily_decay_factor_mem forecast_period i hiday
  have hdf1 : decay_rate * daily_decay_factor forecast_period i ≤ 1 :=
    mul_le_one₀ hd1 hf0 hf1
  unfold daily_variant_revenue
  nlinarith [mul_nonneg (mul_nonneg (mul_nonneg ht habv) (sub_nonneg.mpr hc))
    (by linarith : 0 ≤ 1 - decay_rate * daily_decay_factor forecast_period i)]

/-- The pooled standard error at rate 1/100 on 100 visitors per arm is the
square root of 99/500000. -/
lemma se_pool_cvr_small : se_pool_cvr (1 / 100) 100 (1 / 100) 100 = Real.sqrt (99 / 500000) := by
  have hp : p_pool (1 / 100) 100 (1 / 100) 100 = 1 / 100 := by
    unfold p_pool conversions_test
    norm_num
  unfold se_pool_cvr
  simp only [hp]
  rw [if_pos (by norm_num : (0 : ℝ) < 1 / 100)]
  norm_num

/-- At rate 1/100 on 100 visitors per arm the lower confidence bound
pushes the substituted rate `baseline_rate + ci_low` below zero. -/
lemma cvr_lower_neg : 1 / 100 + ci_cvr_low (1 / 100) 100 (1 / 100) 100 < 0 := by
  unfold ci_cvr_low cvr_abs_uplift
  rw [se_pool_cvr_small]
  have hs : (1 / 190 : ℝ) < Real.sqrt (99 / 500000) :=
    (Real.lt_sqrt (by norm_num)).mpr (by norm_num)
  have h1 : z975 * (1 / 190) < z975 * Real.sqrt (99 / 500000) :=
    mul_lt_mul_of_pos_left hs z975_pos
  have h2 : (1 / 100 : ℝ) < z975 * (1 / 190) := by
    unfold z975
    norm_num
  linarith

/-- C4 counterexample: with both arms at rate 1/100 on 100 visitors, unit
traffic and values, zero decay and a 2-day horizon — all inside the
claim's ranges — the lower-bound cumulative series strictly DECREASES from
day 0 to day 1, because the substituted rate baseline_rate + ci_low is
negative. -/
theorem C4_counterexample :
    calculate_cumulative_revenue 1 (1 / 100) 1
        (1 / 100 + ci_cvr_low (1 / 100) 100 (1 / 100) 100) 1 0 2 1 <
      calculate_cumulative_revenue 1 (1 / 100) 1
        (1 / 100 + ci_cvr_low (1 / 100) 100 (1 / 100) 100) 1 0 2 0 := by
  have hneg := cvr_lower_neg
  unfold calculate_cumulative_revenue daily_variant_revenue
  simp only [Finset.sum_range_succ, Finset.sum_range_zero, zero_mul, sub_zero, mul_one, zero_add]
  linarith

/-- C4 amended: the control cumulative series is non-decreasing for
non-negative traffic, rate and value, and a variant cumulative series
(mean, lower or upper bound) is non-decreasing provided its substituted
conversion rate and average value are also non-negative — an extra
condition the lower-bound rate `baseline_rate + ci_low` can violate. -/
theorem C4_amended_nondecreasing
    (daily_traffic baseline_rate baseline_avg_revenue cvr abv decay_rate : ℝ)
    (forecast_period d : ℕ)
    (ht : 0 ≤ daily_traffic) (hr : 0 ≤ baseline_rate) (hb : 0 ≤ baseline_avg_revenue)
    (hcvr : 0 ≤ cvr) (habv : 0 ≤ abv) (hd0 : 0 ≤ decay_rate) (hd1 : decay_rate ≤ 1)
    (hday : d + 1 < forecast_period) :
    control_cumulative daily_traffic baseline_rate baseline_avg_revenue d ≤
      control_cumulative daily_traffic baseline_rate baseline_avg_revenue (d + 1) ∧
    calculate_cumulative_revenue daily_traffic baseline_rate baseline_avg_revenue cvr abv
        decay_rate forecast_period d ≤
      calculate_cumulative_revenue daily_traffic baseline_rate baseline_avg_revenue cvr abv
        decay_rate forecast_period (d + 1) := by
  constructor
  · unfold control_cumulative
    conv_rhs => rw [Finset.sum_range_succ]
    have : 0 ≤ daily_traffic * baseline_rate * baseline_avg_revenue := by positivity
    exact le_add_of_nonneg_right this
  · unfold calculate_cumulative_revenue
    conv_rhs => rw [Finset.sum_range_succ]
    exact le_add_of_nonneg_right (daily_variant_revenue_nonneg daily_traffic baseline_rate
      baseline_avg_revenue cvr abv decay_rate forecast_period (d + 1) ht hr hb hcvr habv
      hd0 hd1 hday)

/-- Witness for C4 amended: one non-decreasing step of both series at a
concrete projection. -/
theorem C4_amended_nondecreasing_witness :
    control_cumulative 1 (1 / 2) 1 0 ≤ control_cumulative 1 (1 / 2) 1 (0 + 1) ∧
    calculate_cumulative_revenue 1 (1 / 2) 1 (1 / 2) 1 (1 / 2) 3 0 ≤
      calculate_cumulative_revenue 1 (1 / 2) 1 (1 / 2) 1 (1 / 2) 3 (0 + 1) :=
  C4_amended_nondecreasing 1 (1 / 2) 1 (1 / 2) 1 (1 / 2) 3 0 (by norm_num) (by norm_num)
    (by norm_num) (by norm_num) (by norm_num) (by norm_num) (by norm_num) (by norm_num)

/-- C9: at every day index inside the horizon the three variant cumulative
series are pointwise ordered — lower bound <= mean <= upper bound —
because the cumulative revenue function is monotone in its rate argument
and `baseline_rate + ci_low <= variant_rate <= baseline_rate + ci_high`. -/
theorem C9_band_ordering
    (daily_traffic baseline_rate baseline_avg_revenue baseline_users variant_rate variant_users
      variant_avg decay_rate : ℝ) (forecast_period d : ℕ)
    (ht : 0 ≤ daily_traffic) (habv : 0 ≤ variant_avg)
    (hd0 : 0 ≤ decay_rate) (hd1 : decay_rate ≤ 1) (hday : d < forecast_period) :
    calculate_cumulative_revenue daily_traffic baseline_rate baseline_avg_revenue
        (baseline_rate + ci_cvr_low baseline_rate baseline_users variant_rate variant_users)
        variant_avg decay_rate forecast_period d ≤
      calculate_cumulative_revenue daily_traffic baseline_rate baseline_avg_revenue variant_rate
        variant_avg decay_rate forecast_period d ∧
    calculate_cumulative_revenue daily_traffic baseline_rate baseline_avg_revenue variant_rate
        variant_avg decay_rate forecast_period d ≤
      calculate_cumulative_revenue daily_traffic baseline_rate baseline_avg_revenue
        (baseline_rate + ci_cvr_high baseline_rate baseline_users variant_rate variant_users)
        variant_avg decay_rate forecast_period d := by
  have hse := se_pool_cvr_nonneg baseline_rate baseline_users variant_rate variant_users
  have hzs : 0 ≤ z975 * se_pool_cvr baseline_rate baseline_users variant_rate variant_users :=
    mul_nonneg z975_pos.le hse
  constructor
  · apply calculate_cumulative_revenue_mono _ _ _ _ _ _ _ _ _ ht habv hd0 hd1 _ hday
    unfold ci_cvr_low cvr_abs_uplift
    linarith
  · apply calculate_cumulative_revenue_mono _ _ _ _ _ _ _ _ _ ht habv hd0 hd1 _ hday
    unfold ci_cvr_high cvr_abs_uplift
    linarith

/-- Witness for C9 at a concrete projection configuration. -/
theorem C9_band_ordering_witness :
    calculate_cumulative_revenue 1 (1 / 100) 1
        (1 / 100 + ci_cvr_low (1 / 100) 100 (1 / 100) 100) 1 0 2 1 ≤
      calculate_cumulative_revenue 1 (1 / 100) 1 (1 / 100) 1 0 2 1 ∧
    calculate_cumulative_revenue 1 (1 / 100) 1 (1 / 100) 1 0 2 1 ≤
      calculate_cumulative_revenue 1 (1 / 100) 1
        (1 / 100 + ci_cvr_high (1 / 100) 100 (1 / 100) 100) 1 0 2 1 :=
  C9_band_ordering 1 (1 / 100) 1 100 (1 / 100) 100 1 0 2 1 (by norm_num) (by norm_num)
    (by norm_num) (by norm_num) (by norm_num)

/-- Checked division agrees with real division on a nonzero denominator. -/
lemma div?_eq (x y : ℝ) (h : y ≠ 0) : div? x y = some (x / y) := by
  unfold div?
  rw [if_neg h]

/-- Checked square root agrees with the real square root on a
non-negative argument. -/
lemma sqrt?_eq (x : ℝ) (h : 0 ≤ x) : sqrt? x = some (Real.sqrt x) := by
  unfold sqrt?
  rw [if_neg (not_lt.mpr h)]

/-- A checked division guarded by positivity of its denominator always
succeeds, returning the guarded quotient of the unchecked code. -/
lemma div?_guard (u s : ℝ) :
    (if 0 < s then div? u s else some 0) = some (if 0 < s then u / s else 0) := by
  by_cases h : 0 < s
  · rw [if_pos h, if_pos h, div?_eq u s (ne_of_gt h)]
  · rw [if_neg h, if_neg h]

/-- The checked decay factor always succeeds and agrees with the unchecked
one: the division happens only when `forecast_period > 1`, and then its
denominator is nonzero. -/
lemma daily_decay_factor?_eq (forecast_period day : ℕ) :
    daily_decay_factor? forecast_period day =
      some (daily_decay_factor forecast_period day) := by
  unfold daily_decay_factor? daily_decay_factor
  by_cases hfp : 1 < forecast_period
  · have h1 : (1 : ℝ) < (forecast_period : ℝ) := by exact_mod_cast hfp
    rw [if_pos hfp, if_pos hfp, div?_eq _ _ (by
      intro hc
      rw [sub_eq_zero] at hc
      linarith)]
  · rw [if_neg hfp, if_neg hfp]

/-- The checked projection loop always succeeds, producing one daily
figure per day. -/
lemma daily_revenues?_isSome
    (daily_traffic baseline_rate baseline_avg_revenue cvr abv decay_rate : ℝ)
    (forecast_period : ℕ) :
    ∀ n, ∃ l, daily_revenues? daily_traffic baseline_rate baseline_avg_revenue cvr abv
      decay_rate forecast_period n = some l ∧ l.length = n := by
  intro n
  induction n with
  | zero => exact ⟨[], rfl, rfl⟩
  | succ k ih =>
    obtain ⟨l, hl, hlen⟩ := ih
    refine ⟨l ++ [daily_traffic * baseline_rate * baseline_avg_revenue +
      (daily_traffic * cvr * abv - daily_traffic * baseline_rate * baseline_avg_revenue) *
        (1 - decay_rate * daily_decay_factor forecast_period k)], ?_, by simp [hlen]⟩
    simp only [daily_revenues?, hl, daily_decay_factor?_eq, Option.some_bind]

/-- Cumulative sums preserve the length of the daily list. -/
lemma cumsum_length (l : List ℝ) : (cumsum l).length = l.length := by
  unfold cumsum
  rw [List.length_tail, List.length_scanl]
  omega

/-- Under the interface ranges the checked rate test succeeds and returns
exactly the unchecked p-value and confidence interval, with the relative
uplift marked NaN (`none`) for a zero control rate. -/
lemma rate_test?_eq (baseline_rate baseline_users variant_rate variant_users : ℝ)
    (hr10 : 0 ≤ baseline_rate) (hr11 : baseline_rate ≤ 1)
    (hr20 : 0 ≤ variant_rate) (hr21 : variant_rate ≤ 1)
    (hn1 : 1 ≤ baseline_users) (hn2 : 1 ≤ variant_users) :
    rate_test? baseline_rate baseline_users variant_rate variant_users =
      some (p_value_cvr baseline_rate baseline_users variant_rate variant_users,
        ci_cvr_low baseline_rate baseline_users variant_rate variant_users,
        ci_cvr_high baseline_rate baseline_users variant_rate variant_users,
        if 0 < baseline_rate then some ((variant_rate - baseline_rate) / baseline_rate * 100)
        else none) := by
  have hn1p : (0 : ℝ) < baseline_users := by linarith
  have hn2p : (0 : ℝ) < variant_users := by linarith
  have hsum : baseline_users + variant_users ≠ 0 := by positivity
  have hct1 : 1 ≤ conversions_test baseline_rate baseline_users := le_max_left _ _
  have hct2 : 1 ≤ conversions_test variant_rate variant_users := le_max_left _ _
  have hub1 : conversions_test baseline_rate baseline_users ≤ baseline_users := by
    unfold conversions_test
    apply max_le hn1
    nlinarith
  have hub2 : conversions_test variant_rate variant_users ≤ variant_users := by
    unfold conversions_test
    apply max_le hn2
    nlinarith
  have hfold : (conversions_test baseline_rate baseline_users +
      conversions_test variant_rate variant_users) / (baseline_users + variant_users) =
      p_pool baseline_rate baseline_users variant_rate variant_users := rfl
  have hpp_pos : 0 < p_pool baseline_rate baseline_users variant_rate variant_users := by
    unfold p_pool
    exact div_pos (by linarith) (by linarith)
  have hpp_le : p_pool baseline_rate baseline_users variant_rate variant_users ≤ 1 := by
    unfold p_pool
    rw [div_le_one (by linarith)]
    linarith
  have harg : 0 ≤ p_pool baseline_rate baseline_users variant_rate variant_users *
      (1 - p_pool baseline_rate baseline_users variant_rate variant_users) *
      (1 / baseline_users + 1 / variant_users) := by
    have h1 : (0 : ℝ) ≤ 1 / baseline_users + 1 / variant_users := by positivity
    exact mul_nonneg (mul_nonneg hpp_pos.le (by linarith)) h1
  have hrel : (if 0 < baseline_rate then
      (div? (variant_rate - baseline_rate) baseline_rate).map (fun q => some (q * 100))
      else some none) = some (if 0 < baseline_rate then
        some ((variant_rate - baseline_rate) / baseline_rate * 100) else none) := by
    by_cases h : 0 < baseline_rate
    · rw [if_pos h, if_pos h, div?_eq _ _ (ne_of_gt h)]
      rfl
    · rw [if_neg h, if_neg h]
  have hse : (if 0 < p_pool baseline_rate baseline_users variant_rate variant_users then
      sqrt? (p_pool baseline_rate baseline_users variant_rate variant_users *
        (1 - p_pool baseline_rate baseline_users variant_rate variant_users) *
        (1 / baseline_users + 1 / variant_users)) else some 0) =
      some (se_pool_cvr baseline_rate baseline_users variant_rate variant_users) := by
    rw [if_pos hpp_pos, sqrt?_eq _ harg]
    unfold se_pool_cvr
    rw [if_pos hpp_pos]
  have hz : (if 0 < se_pool_cvr baseline_rate baseline_users variant_rate variant_users then
      div? (variant_rate - baseline_rate)
        (se_pool_cvr baseline_rate baseline_users variant_rate variant_users) else some 0) =
      some (z_score_cvr baseline_rate baseline_users variant_rate variant_users) := by
    rw [div?_guard]
    unfold z_score_cvr cvr_abs_uplift
    rfl
  unfold rate_test?
  rw [hrel, Option.some_bind, div?_eq _ _ hsum, Option.some_bind, hfold,
    div?_eq 1 _ (ne_of_gt hn1p), Option.some_bind, div?_eq 1 _ (ne_of_gt hn2p),
    Option.some_bind, hse, Option.some_bind, hz, Option.some_bind]
  unfold p_value_cvr ci_cvr_low ci_cvr_high cvr_abs_uplift
  rfl

/-- With positive effective counts the checked value test succeeds and
returns exactly the unchecked p-value and confidence interval. -/
lemma value_test?_eq (baseline_avg baseline_std n_c variant_avg variant_std n_v : ℝ)
    (hnc : 0 < n_c) (hnv : 0 < n_v) :
    value_test? baseline_avg baseline_std n_c variant_avg variant_std n_v =
      some (p_value_abv baseline_avg baseline_std n_c variant_avg variant_std n_v,
        ci_abv_low baseline_avg baseline_std n_c variant_avg variant_std n_v,
        ci_abv_high baseline_avg baseline_std n_c variant_avg variant_std n_v,
        if 0 < baseline_avg then some ((variant_avg - baseline_avg) / baseline_avg * 100)
        else none) := by
  have harg : 0 ≤ baseline_std ^ 2 / n_c + variant_std ^ 2 / n_v := by positivity
  have hfold : Real.sqrt (baseline_std ^ 2 / n_c + variant_std ^ 2 / n_v) =
      se_pool_abv baseline_std n_c variant_std n_v := rfl
  have hrel : (if 0 < baseline_avg then
      (div? (variant_avg - baseline_avg) baseline_avg).map (fun q => some (q * 100))
      else some none) = some (if 0 < baseline_avg then
        some ((variant_avg - baseline_avg) / baseline_avg * 100) else none) := by
    by_cases h : 0 < baseline_avg
    · rw [if_pos h, if_pos h, div?_eq _ _ (ne_of_gt h)]
      rfl
    · rw [if_neg h, if_neg h]
  have hz : (if 0 < se_pool_abv baseline_std n_c variant_std n_v then
      div? (variant_avg - baseline_avg) (se_pool_abv baseline_std n_c variant_std n_v)
      else some 0) =
      some (z_score_abv baseline_avg baseline_std n_c variant_avg variant_std n_v) := by
    rw [div?_guard]
    unfold z_score_abv abv_abs_uplift
    rfl
  unfold value_test?
  rw [hrel, Option.some_bind, div?_eq _ _ (ne_of_gt hnc), Option.some_bind,
    div?_eq _ _ (ne_of_gt hnv), Option.some_bind, sqrt?_eq _ harg, Option.some_bind, hfold,
    hz, Option.some_bind]
  unfold p_value_abv ci_abv_low ci_abv_high abv_abs_uplift
  rfl

/-- C10: within the interface ranges (percent rates in [0,100], visitor
counts and traffic >= 1, non-negative values and standard deviations,
horizon >= 1, decay percent in [0,100]) the whole checked calculation
succeeds: every division and square root in the pipeline is guarded, so no
division by zero or domain error is reachable. -/
theorem C10_totality
    (baseline_conv baseline_users variant_conv variant_users baseline_avg_revenue
      baseline_std_dev variant_avg_revenue variant_std_dev daily_traffic : ℝ)
    (forecast_period : ℕ) (decay_rate_pct : ℝ)
    (hbc0 : 0 ≤ baseline_conv) (hbc1 : baseline_conv ≤ 100)
    (hvc0 : 0 ≤ variant_conv) (hvc1 : variant_conv ≤ 100)
    (hbu : 1 ≤ baseline_users) (hvu : 1 ≤ variant_users)
    (hbar : 0 ≤ baseline_avg_revenue) (hbsd : 0 ≤ baseline_std_dev)
    (hvar : 0 ≤ variant_avg_revenue) (hvsd : 0 ≤ variant_std_dev)
    (hdt : 1 ≤ daily_traffic) (hfp : 1 ≤ forecast_period)
    (hdr0 : 0 ≤ decay_rate_pct) (hdr1 : decay_rate_pct ≤ 100) :
    (run_calculation? baseline_conv baseline_users variant_conv variant_users
      baseline_avg_revenue baseline_std_dev variant_avg_revenue variant_std_dev daily_traffic
      forecast_period decay_rate_pct).isSome := by
  have h100 : (100 : ℝ) ≠ 0 := by norm_num
  have hr10 : 0 ≤ baseline_conv / 100 := by positivity
  have hr11 : baseline_conv / 100 ≤ 1 := by
    rw [div_le_one (by norm_num : (0 : ℝ) < 100)]
    exact hbc1
  have hr20 : 0 ≤ variant_conv / 100 := by positivity
  have hr21 : variant_conv / 100 ≤ 1 := by
    rw [div_le_one (by norm_num : (0 : ℝ) < 100)]
    exact hvc1
  have hct1 : (0 : ℝ) < conversions_test (baseline_conv / 100) baseline_users :=
    lt_of_lt_of_le one_pos (le_max_left _ _)
  have hct2 : (0 : ℝ) < conversions_test (variant_conv / 100) variant_users :=
    lt_of_lt_of_le one_pos (le_max_left _ _)
  have hcum_ne : ∀ l : List ℝ, l.length = forecast_period → cumsum l ≠ [] := by
    intro l hl hcon
    have h1 : (cumsum l).length = forecast_period := by rw [cumsum_length, hl]
    rw [hcon] at h1
    simp at h1
    omega
  obtain ⟨lm, hlm, hlen_m⟩ := daily_revenues?_isSome daily_traffic (baseline_conv / 100)
    baseline_avg_revenue (variant_conv / 100) variant_avg_revenue (decay_rate_pct / 100)
    forecast_period forecast_period
  obtain ⟨ll, hll, hlen_l⟩ := daily_revenues?_isSome daily_traffic (baseline_conv / 100)
    baseline_avg_revenue
    (baseline_conv / 100 +
      ci_cvr_low (baseline_conv / 100) baseline_users (variant_conv / 100) variant_users)
    variant_avg_revenue (decay_rate_pct / 100) forecast_period forecast_period
  obtain ⟨lu, hlu, hlen_u⟩ := daily_revenues?_isSome daily_traffic (baseline_conv / 100)
    baseline_avg_revenue
    (baseline_conv / 100 +
      ci_cvr_high (baseline_conv / 100) baseline_users (variant_conv / 100) variant_users)
    variant_avg_revenue (decay_rate_pct / 100) forecast_period forecast_period
  obtain ⟨c0, hc0⟩ := Option.isSome_iff_exists.mp (List.getLast?_isSome.mpr
    (hcum_ne (List.replicate forecast_period
        (daily_traffic * (baseline_conv / 100) * baseline_avg_revenue))
      (List.length_replicate forecast_period _)))
  obtain ⟨m0, hm0⟩ := Option.isSome_iff_exists.mp (List.getLast?_isSome.mpr
    (hcum_ne lm hlen_m))
  obtain ⟨l0, hl0⟩ := Option.isSome_iff_exists.mp (List.getLast?_isSome.mpr
    (hcum_ne ll hlen_l))
  obtain ⟨u0, hu0⟩ := Option.isSome_iff_exists.mp (List.getLast?_isSome.mpr
    (hcum_ne lu hlen_u))
  unfold run_calculation?
  rw [div?_eq _ _ h100, Option.some_bind, div?_eq _ _ h100, Option.some_bind,
    div?_eq _ _ h100, Option.some_bind,
    rate_test?_eq _ _ _ _ hr10 hr11 hr20 hr21 hbu hvu, Option.some_bind,
    value_test?_eq _ _ _ _ _ _ hct1 hct2, Option.some_bind]
  simp only [hlm, hll, hlu, Option.some_bind, hc0, hm0, hl0, hu0, Option.isSome_some]

/-- Witness for C10 at the app's default inputs. -/
theorem C10_totality_witness :
    (run_calculation? 2.5 10000 2.8 10000 120 20 125 22 5000 90 10).isSome :=
  C10_totality 2.5 10000 2.8 10000 120 20 125 22 5000 90 10 (by norm_num) (by norm_num)
    (by norm_num) (by norm_num) (by norm_num) (by norm_num) (by norm_num) (by norm_num)
    (by norm_num) (by norm_num) (by norm_num) (by norm_num) (by norm_num) (by norm_num)

end

end ABTest
